import Mathlib

/-!
Shallow embedding of the model_learn script (src/model_learn/model.py) and
proofs about the claims of its specification.

The script loads two gridded datasets, flattens selected variables into two
aligned tables, splits them into train and test parts with a fixed seed, and
runs a sweep of regression estimators.  The embedding below models

  - numpy arrays as a shape together with a row-major data function,
  - the slicing expressions used by the script (full-grid and level-zero),
  - pandas Series and DataFrame construction with index alignment,
  - the sklearn train_test_split size policy and its seeded permutation,
  - the control flow of the estimator sweep, in particular which steps can
    raise, as an Except computation,
  - the timestamp extraction helper with python calendar arithmetic.

Python exceptions are modelled with the PyErr type; a raised exception is an
Except.error value that propagates through the do-blocks exactly as the
exception propagates through the script.
-/

/-- Python exception kinds that the modelled code can raise. -/
inductive PyErr : Type where
  | keyError (msg : String) : PyErr
  | attributeError (msg : String) : PyErr
  | typeError : PyErr
  | indexError : PyErr
  | valueError : PyErr
  | overflowError : PyErr
deriving DecidableEq, Repr

/-- Logging levels of the python logging module, as far as the script uses them. -/
inductive LogLevel : Type where
  | debug : LogLevel
  | info : LogLevel
  | warning : LogLevel
  | error : LogLevel
deriving DecidableEq, Repr

/-- One record emitted to the log. -/
structure LogEntry : Type where
  level : LogLevel
  msg : String
deriving DecidableEq, Repr

/-- A numpy ndarray: a shape and a total row-major data function.  The cell at
multi-index (i1, ..., ik) is data applied to the row-major linear index. -/
structure NdArray : Type where
  shape : List Nat
  data : Nat → ℚ

/-- Number of elements of the array. -/
def NdArray.size (a : NdArray) : Nat := a.shape.prod

/-- The ndarray flatten method: all elements in row-major order. -/
def NdArray.flat (a : NdArray) : List ℚ := (List.range a.size).map a.data

/-- The slicing expression values with three full slices, as in
values of PS, PRECL and Q in the script.  On an array of fewer than three
dimensions numpy raises an IndexError (too many indices); on three or more
dimensions it returns the whole array. -/
def sliceAll (a : NdArray) : Except PyErr NdArray :=
  if 3 ≤ a.shape.length then .ok a else .error .indexError

/-- The slicing expression with index 0 on the second axis, as in values of
T, U, V and the tendency variables in the script.  It needs at least four
dimensions and a nonempty second axis, and selects the lowest level:
the result drops the second axis, keeping row-major order. -/
def sliceLevel0 (a : NdArray) : Except PyErr NdArray :=
  if 4 ≤ a.shape.length ∧ 0 < a.shape.getD 1 0 then
    .ok ⟨a.shape.take 1 ++ a.shape.drop 2,
         fun k => a.data (k / (a.shape.drop 2).prod
           * (a.shape.getD 1 0 * (a.shape.drop 2).prod) + k % (a.shape.drop 2).prod)⟩
  else .error .indexError

/-- An xarray dataset: named variables plus the time coordinate values. -/
structure Dataset : Type where
  vars : List (String × NdArray)
  time : List ℚ

/-- Variable lookup, raising a KeyError for an absent name. -/
def Dataset.getVar (ds : Dataset) (name : String) : Except PyErr NdArray :=
  match ds.vars.find? (fun p => p.1 = name) with
  | some p => .ok p.2
  | none => .error (.keyError name)

/-- The series built for a surface variable: the whole grid flattened. -/
def surfaceSeries (ds : Dataset) (name : String) : Except PyErr (List ℚ) := do
  let a ← ds.getVar name
  let s ← sliceAll a
  .ok s.flat

/-- The series built for a variable sliced at vertical level zero. -/
def level0Series (ds : Dataset) (name : String) : Except PyErr (List ℚ) := do
  let a ← ds.getVar name
  let s ← sliceLevel0 a
  .ok s.flat

/-- A pandas DataFrame over a RangeIndex: named columns of cells, where a
cell holds none to model NaN, and the number of rows.  Every column list has
length nrows by construction. -/
structure DataFrame : Type where
  cols : List (String × List (Option ℚ))
  nrows : Nat
deriving DecidableEq, Repr

/-- Cells of a Series of the given values aligned to a RangeIndex of n rows:
row i holds the value at position i when it exists and NaN past the end. -/
def seriesCells (n : Nat) (s : List ℚ) : List (Option ℚ) :=
  (List.range n).map s.get?

/-- DataFrame construction from named Series, as in the pd.DataFrame calls of
the script: the index is the union of the RangeIndexes, hence a RangeIndex of
the maximal length, and every column is aligned to it. -/
def DataFrame.fromSeries (l : List (String × List ℚ)) : DataFrame :=
  let n := (l.map (fun p => p.2.length)).foldr max 0
  ⟨l.map (fun p => (p.1, seriesCells n p.2)), n⟩

/-- Column assignment from a Series, as in the second-stage additions of the
script.  The assigned values are aligned to the existing index: extra values
of a longer Series are dropped and missing positions become NaN.  The row
count never changes. -/
def DataFrame.setCol (df : DataFrame) (name : String) (s : List ℚ) : DataFrame :=
  let cdata := seriesCells df.nrows s
  if df.cols.any (fun p => p.1 = name) then
    ⟨df.cols.map (fun p => if p.1 = name then (name, cdata) else p), df.nrows⟩
  else
    ⟨df.cols ++ [(name, cdata)], df.nrows⟩

/-- Read a column by name, for stating properties. -/
def DataFrame.getCol (df : DataFrame) (name : String) : Option (List (Option ℚ)) :=
  (df.cols.find? (fun p => p.1 = name)).map (fun p => p.2)

/-- Indexing a DataFrame with a single string key returns that column as a
Series, modelled as a one-column frame; an absent name raises a KeyError. -/
def DataFrame.getItemStr (df : DataFrame) (name : String) : Except PyErr DataFrame :=
  match df.cols.find? (fun p => p.1 = name) with
  | some p => .ok ⟨[p], df.nrows⟩
  | none => .error (.keyError name)

/-- Indexing a DataFrame with a tuple key, as the script does in its third
stage.  pandas looks the tuple up as a single column label; the column labels
of these frames are plain strings, so the lookup raises a KeyError. -/
def DataFrame.getItemTuple (_df : DataFrame) (k1 k2 : String) : Except PyErr DataFrame :=
  .error (.keyError (k1 ++ ", " ++ k2))

/-- Row selection by positional indices, used to materialise a split. -/
def DataFrame.takeRows (df : DataFrame) (idx : List Nat) : DataFrame :=
  ⟨df.cols.map (fun p => (p.1, idx.map (fun i => p.2.getD i none))), idx.length⟩

/-- Whether any cell of the frame is NaN. -/
def DataFrame.hasNaN (df : DataFrame) : Bool :=
  df.cols.any (fun p => p.2.any (fun c => c = none))

/-- The attribute access x.flatten() on a DataFrame.  pandas DataFrames have
no flatten method; attribute access falls back to column lookup, so without a
column named flatten it raises an AttributeError, and with one the looked-up
Series is not callable, a TypeError. -/
def DataFrame.callFlatten (df : DataFrame) : Except PyErr (List ℚ) :=
  if df.cols.any (fun p => p.1 = "flatten") then .error .typeError
  else .error (.attributeError "flatten")

/-- The log record emitted by the time-coordinate consistency check of the
script, which element-wise compares the two time arrays and logs either way
at info level. -/
def timeCheckLog (tf tl : List ℚ) : LogEntry :=
  if tf = tl then ⟨.info, "OK: time values match as expected"⟩
  else ⟨.info, "ERROR: Non-matching time values"⟩

/-- The consistency check as a step of the pipeline: comparing arrays of
different lengths fails to broadcast, otherwise the check only logs and
always continues. -/
def timeCheckE (tf tl : List ℚ) : Except PyErr LogEntry :=
  if tf.length ≠ tl.length then .error .valueError
  else .ok (timeCheckLog tf tl)

/-- The sklearn test-subset size for a fractional test_size: the ceiling of
test_size times the number of samples.  The ceiling of num/den for a positive
den is computed as the negated floor division of the negation. -/
def nTestOf (frac : ℚ) (n : Nat) : Nat :=
  (-((-(frac.num * (n : Int))).fdiv (frac.den : Int))).toNat

/-- The index partition produced by the seeded shuffle split: the permutation
of range n drawn from the generator, whose first nTest entries form the test
subset and the rest the training subset.  The generator itself (numpy
MT19937) is a parameter perm, an arbitrary function of the seed and n. -/
def splitIndices (perm : Nat → Nat → List Nat) (seed : Nat) (frac : ℚ) (n : Nat) :
    List Nat × List Nat :=
  ((perm seed n).drop (nTestOf frac n), (perm seed n).take (nTestOf frac n))

/-- The state of the global numpy random generator, consumed only by calls
that pass no fixed random_state. -/
structure RngState : Type where
  counter : Nat
deriving DecidableEq, Repr

/-- Drawing a permutation of range n: with a fixed random_state seed a fresh
generator seeded with it is used and the global state is untouched; with
none, the global generator is consumed and advanced. -/
def drawPerm (perm : Nat → Nat → List Nat) (randomState : Option Nat) (n : Nat)
    (g : RngState) : List Nat × RngState :=
  match randomState with
  | some s => (perm s n, g)
  | none => (perm g.counter n, ⟨g.counter + 1⟩)

/-- The four frames returned by train_test_split. -/
structure Split4 : Type where
  trainX : DataFrame
  testX : DataFrame
  trainY : DataFrame
  testY : DataFrame
deriving DecidableEq, Repr

/-- sklearn train_test_split on a pair of aligned frames: validates that the
inputs have the same number of rows and that the training part is nonempty,
draws the permutation, and selects the rows of each part. -/
def trainTestSplitG (perm : Nat → Nat → List Nat) (randomState : Option Nat) (frac : ℚ)
    (x y : DataFrame) (g : RngState) : Except PyErr Split4 × RngState :=
  if x.nrows ≠ y.nrows then (.error .valueError, g)
  else
    let n := x.nrows
    let nt := nTestOf frac n
    if n - nt = 0 then (.error .valueError, g)
    else
      let pg := drawPerm perm randomState n g
      let te := pg.1.take nt
      let tr := pg.1.drop nt
      (.ok ⟨x.takeRows tr, x.takeRows te, y.takeRows tr, y.takeRows te⟩, pg.2)

/-- The split as called by the script, always with a fixed random_state. -/
def trainTestSplitE (perm : Nat → Nat → List Nat) (seed : Nat) (frac : ℚ)
    (x y : DataFrame) : Except PyErr Split4 :=
  (trainTestSplitG perm (some seed) frac x y ⟨0⟩).1

/-- Input validation shared by the sklearn estimator fits and scores of the
sweep: features and labels must have equal row counts, training data must be
nonempty, and no cell may be NaN. -/
def fitChecks (xTr yTr xTe yTe : DataFrame) : Except PyErr Unit :=
  if xTr.nrows ≠ yTr.nrows ∨ xTe.nrows ≠ yTe.nrows then .error .valueError
  else if xTr.nrows = 0 then .error .valueError
  else if xTr.hasNaN ∨ yTr.hasNaN ∨ xTe.hasNaN ∨ yTe.hasNaN then .error .valueError
  else .ok ()

/-- The support-vector step with linear kernel of the sweep.  The script
calls flatten on the training frames before fitting, so the step evaluates
x_train.flatten() first and y_train.flatten() next. -/
def svrLinearStep (xTr yTr : DataFrame) : Except PyErr Unit := do
  let _ ← xTr.callFlatten
  let _ ← yTr.callFlatten
  .ok ()

/-- The two remaining support-vector steps (polynomial and RBF kernels) fit
the frames directly; SVR supports a single target column only. -/
def svrSingleOutputStep (_xTr yTr : DataFrame) : Except PyErr Unit :=
  if yTr.cols.length ≠ 1 then .error .valueError else .ok ()

/-- The estimator sweep train_test_linear: linear regression, ridge, random
forests, k-neighbors, extra trees, then the three support-vector variants,
each fitted on the training frames and scored on the test frames.  The
linear, ridge, forest, neighbor and tree estimators accept multi-column
labels; scoring the k-neighbors models needs at least k training rows for
k up to 20; the support-vector steps follow. -/
def train_test_linear (xTr yTr xTe yTe : DataFrame) : Except PyErr Unit := do
  fitChecks xTr yTr xTe yTe
  if [1, 3, 5, 10, 20].any (fun k => xTr.nrows < k) then .error .valueError
  else do
    svrLinearStep xTr yTr
    svrSingleOutputStep xTr yTr
    svrSingleOutputStep xTr yTr

/-- The first-stage feature frame: PS over the whole grid, T, U and V at the
lowest vertical level, in that column order. -/
def buildFeatures (ds : Dataset) : Except PyErr DataFrame := do
  let ps ← surfaceSeries ds "PS"
  let t ← level0Series ds "T"
  let u ← level0Series ds "U"
  let v ← level0Series ds "V"
  .ok (DataFrame.fromSeries [("PS", ps), ("T", t), ("U", u), ("V", v)])

/-- The first-stage label frame: the three tendencies at the lowest level. -/
def buildLabels (ds : Dataset) : Except PyErr DataFrame := do
  let ptt ← level0Series ds "PTTEND"
  let put ← level0Series ds "PUTEND"
  let pvt ← level0Series ds "PVTEND"
  .ok (DataFrame.fromSeries [("PTTEND", ptt), ("PUTEND", put), ("PVTEND", pvt)])

/-- The second-stage additions to the feature frame: PRECL and Q are both
read with the full-grid slicing expression and assigned as new columns. -/
def addStage2Features (ds : Dataset) (df : DataFrame) : Except PyErr DataFrame := do
  let precl ← surfaceSeries ds "PRECL"
  let q ← surfaceSeries ds "Q"
  .ok ((df.setCol "PRECL" precl).setCol "Q" q)

/-- The second-stage addition to the label frame: PTEQ at the lowest level. -/
def addStage2Labels (ds : Dataset) (df : DataFrame) : Except PyErr DataFrame := do
  let pteq ← level0Series ds "PTEQ"
  .ok (df.setCol "PTEQ" pteq)

/-- The main body of the script after argument parsing: the time check, the
two frame constructions, the first split and sweep, the second-stage column
additions, the second split and sweep, and the third-stage trim and split
that no sweep ever consumes.  Any exception escapes, is logged at the top
level and re-raised, so an error value here means abnormal termination. -/
def mainPipeline (perm : Nat → Nat → List Nat) (dsF dsL : Dataset) : Except PyErr Unit := do
  let _ ← timeCheckE dsF.time dsL.time
  let dff1 ← buildFeatures dsF
  let dfl1 ← buildLabels dsL
  let s1 ← trainTestSplitE perm 4 (mkRat 1 4) dff1 dfl1
  train_test_linear s1.trainX s1.trainY s1.testX s1.testY
  let dff2 ← addStage2Features dsF dff1
  let dfl2 ← addStage2Labels dsL dfl1
  let s2 ← trainTestSplitE perm 4 (mkRat 1 4) dff2 dfl2
  train_test_linear s2.trainX s2.trainY s2.testX s2.testY
  let dff3 ← dff2.getItemTuple "PRECL" "Q"
  let dfl3 ← dfl2.getItemStr "PTEQ"
  let _ ← trainTestSplitE perm 4 (mkRat 1 4) dff3 dfl3
  .ok ()

/-- Round-half-even of the fraction p over d for a positive d, the rounding
python timedelta applies to fractional microseconds. -/
def roundHalfEvenDiv (p : Int) (d : Nat) : Int :=
  let f := p.fdiv (d : Int)
  let r := p - f * (d : Int)
  if 2 * r < (d : Int) then f
  else if (d : Int) < 2 * r then f + 1
  else if 2 ∣ f then f else f + 1

/-- Microseconds of timedelta with the given number of days: python combines
the fractional parts and rounds the total to the nearest microsecond with
round-half-even. -/
def timedeltaDaysUs (t : ℚ) : Int :=
  roundHalfEvenDiv (t.num * 86400000000) t.den

/-- Leap years of the proleptic Gregorian calendar of python datetime. -/
def isLeap (y : Nat) : Bool :=
  y % 4 = 0 && (y % 100 != 0 || y % 400 = 0)

/-- Month lengths of a non-leap year. -/
def monthDays : List Nat := [31, 28, 31, 30, 31, 30, 31, 31, 30, 31, 30, 31]

/-- Number of days of the given month. -/
def daysInMonth (y m : Nat) : Nat :=
  if m = 2 ∧ isLeap y then 29 else monthDays.getD (m - 1) 0

/-- Days of all years before y. -/
def daysBeforeYear (y : Nat) : Nat :=
  let n := y - 1
  n * 365 + n / 4 - n / 100 + n / 400

/-- Days of the months of year y before month m. -/
def daysBeforeMonth (y m : Nat) : Nat :=
  (monthDays.take (m - 1)).foldr (fun a b => a + b) 0 + (if 2 < m ∧ isLeap y then 1 else 0)

/-- The python toordinal value of a date: day 1 is january first of year 1. -/
def toordinal (y m d : Nat) : Nat :=
  daysBeforeYear y + daysBeforeMonth y m + d

/-- The ordinal of the unix epoch, january first of 1970, the reference point
of numpy datetime64 values. -/
def epochOrdinal : Nat := 719163

/-- The datetime constructor: validates the calendar date and returns its
ordinal; python raises a ValueError on an invalid date and limits years to
the range 1 to 9999. -/
def pyDatetime (y m d : Nat) : Except PyErr Nat :=
  if 1 ≤ y ∧ y ≤ 9999 ∧ 1 ≤ m ∧ m ≤ 12 ∧ 1 ≤ d ∧ d ≤ daysInMonth y m then
    .ok (toordinal y m d)
  else .error .valueError

/-- Adding a timedelta of t days to a midnight datetime of the given ordinal,
in microseconds since the day before year 1.  python raises an OverflowError
when the result leaves the representable range of years 1 to 9999. -/
def pyDatetimeAddDays (ord : Nat) (t : ℚ) : Except PyErr Int :=
  let r := (ord : Int) * 86400000000 + timedeltaDaysUs t
  if 86400000000 ≤ r ∧ r < 3652060 * 86400000000 then .ok r else .error .overflowError

/-- Elementwise fallible evaluation over a list, in order, stopping at the
first raised exception, as the assignment loop of extract_timestamps does. -/
def mapExceptInt (f : ℚ → Except PyErr Int) : List ℚ → Except PyErr (List Int)
  | [] => .ok []
  | t :: ts => do
      let r ← f t
      let rs ← mapExceptInt f ts
      .ok (r :: rs)

/-- The extract_timestamps helper of the script: interprets the time values
as day offsets from the initial calendar date, adds each to the initial
datetime, and stores the results in order into an array of minute resolution,
which truncates each timestamp toward the past to whole minutes since the
unix epoch. -/
def extract_timestamps (times : List ℚ) (initialYear initialMonth initialDay : Nat) :
    Except PyErr (List Int) := do
  let o ← pyDatetime initialYear initialMonth initialDay
  mapExceptInt (fun t => do
    let r ← pyDatetimeAddDays o t
    .ok ((r - (epochOrdinal : Int) * 86400000000).fdiv 60000000)) times

/-- Row-major enumeration of a rank-three index space, written as the nested
loops of the natural-language contract: the last index varies fastest. -/
def rowMajor3 (f : Nat → Nat → Nat → ℚ) (n1 n2 n3 : Nat) : List ℚ :=
  ((List.range n1).map (fun t =>
    ((List.range n2).map (fun i =>
      (List.range n3).map (fun j => f t i j))).flatten)).flatten

/-- The specified column content for a surface variable on a grid of nt times
nla by nlo points: the entire grid flattened in row-major order. -/
def specSurface (a : NdArray) (nt nla nlo : Nat) : List ℚ :=
  rowMajor3 (fun t i j => a.data ((t * nla + i) * nlo + j)) nt nla nlo

/-- The specified column content for a variable with nl vertical levels: the
slice at the lowest level flattened in row-major order. -/
def specLevel0 (a : NdArray) (nt nl nla nlo : Nat) : List ℚ :=
  rowMajor3 (fun t i j => a.data ((t * nl * nla + i) * nlo + j)) nt nla nlo

/-- Example feature array PS: a surface variable on a 3 by 3 by 3 grid. -/
def psEx : NdArray := ⟨[3, 3, 3], fun k => (k : ℚ)⟩

/-- Example feature array T: two vertical levels on the same grid. -/
def tEx : NdArray := ⟨[3, 2, 3, 3], fun k => ((k + 100 : Nat) : ℚ)⟩

/-- Example feature array U. -/
def uEx : NdArray := ⟨[3, 2, 3, 3], fun k => ((k + 200 : Nat) : ℚ)⟩

/-- Example feature array V. -/
def vEx : NdArray := ⟨[3, 2, 3, 3], fun k => ((k + 300 : Nat) : ℚ)⟩

/-- Example feature array PRECL: a surface variable. -/
def preclEx : NdArray := ⟨[3, 3, 3], fun k => ((k + 400 : Nat) : ℚ)⟩

/-- Example feature array Q: a humidity field with two vertical levels. -/
def qEx : NdArray := ⟨[3, 2, 3, 3], fun k => ((k + 500 : Nat) : ℚ)⟩

/-- Example label array PTTEND. -/
def pttendEx : NdArray := ⟨[3, 2, 3, 3], fun k => ((k + 600 : Nat) : ℚ)⟩

/-- Example label array PUTEND. -/
def putendEx : NdArray := ⟨[3, 2, 3, 3], fun k => ((k + 700 : Nat) : ℚ)⟩

/-- Example label array PVTEND. -/
def pvtendEx : NdArray := ⟨[3, 2, 3, 3], fun k => ((k + 800 : Nat) : ℚ)⟩

/-- Example label array PTEQ. -/
def pteqEx : NdArray := ⟨[3, 2, 3, 3], fun k => ((k + 900 : Nat) : ℚ)⟩

/-- Example feature dataset over three time steps. -/
def dsFeaturesEx : Dataset :=
  ⟨[("PS", psEx), ("T", tEx), ("U", uEx), ("V", vEx), ("PRECL", preclEx), ("Q", qEx)],
   [0, 1, 2]⟩

/-- Example label dataset over the same three time steps. -/
def dsLabelsEx : Dataset :=
  ⟨[("PTTEND", pttendEx), ("PUTEND", putendEx), ("PVTEND", pvtendEx), ("PTEQ", pteqEx)],
   [0, 1, 2]⟩

/-- A concrete permutation source standing in for the seeded numpy generator
in closed statements: the identity permutation for every seed. -/
def permEx : Nat → Nat → List Nat := fun _ n => List.range n

/-- Unwrap an expected frame, for naming intermediate pipeline values. -/
def orEmptyDF (e : Except PyErr DataFrame) : DataFrame :=
  match e with
  | .ok d => d
  | .error _ => ⟨[], 0⟩

/-- The first-stage feature frame of the example dataset. -/
def dff1Ex : DataFrame := orEmptyDF (buildFeatures dsFeaturesEx)

/-- The first-stage label frame of the example dataset. -/
def dfl1Ex : DataFrame := orEmptyDF (buildLabels dsLabelsEx)

/-- The feature frame of the example dataset after the second-stage additions. -/
def dff2Ex : DataFrame := orEmptyDF (addStage2Features dsFeaturesEx dff1Ex)

/-- The label frame of the example dataset after the second-stage addition. -/
def dfl2Ex : DataFrame := orEmptyDF (addStage2Labels dsLabelsEx dfl1Ex)


/-- Collapsing a product range: mapping over range of a product equals the
join of nested row-major maps. -/
theorem range_mul_map {α : Type} (a b : Nat) (g : Nat → Nat → α) :
    (List.range (a * b)).map (fun k => g (k / b) (k % b)) =
      ((List.range a).map (fun i => (List.range b).map (fun j => g i j))).flatten := by
  induction a with
  | zero => simp
  | succ n ih =>
      rcases Nat.eq_zero_or_pos b with hb | hb
      · subst hb
        simp
      · rw [Nat.succ_mul, List.range_add, List.map_append, List.map_map,
          List.range_succ, List.map_append, List.flatten_append, ← ih]
        congr 1
        simp only [List.map_singleton, List.flatten, Function.comp_def]
        have hcong : ∀ x ∈ List.range b, g ((n * b + x) / b) ((n * b + x) % b) = g n x := by
          intro x hx
          have hxb : x < b := List.mem_range.mp hx
          rw [Nat.add_comm (n * b) x, Nat.add_mul_div_right _ _ hb,
            Nat.div_eq_of_lt hxb, Nat.add_mul_mod_self_right, Nat.mod_eq_of_lt hxb]
          simp
        rw [List.map_congr_left hcong]
        simp

/-- The nested row-major enumeration as a single map over a flat range. -/
theorem rowMajor3_eq (f : Nat → Nat → Nat → ℚ) (n1 n2 n3 : Nat) :
    rowMajor3 f n1 n2 n3 =
      (List.range (n1 * (n2 * n3))).map
        (fun k => f (k / (n2 * n3)) (k % (n2 * n3) / n3) (k % (n2 * n3) % n3)) := by
  unfold rowMajor3
  have h1 : ∀ t ∈ List.range n1,
      ((List.range n2).map (fun i => (List.range n3).map (fun j => f t i j))).flatten
        = (List.range (n2 * n3)).map (fun r => f t (r / n3) (r % n3)) := by
    intro t _
    exact (range_mul_map n2 n3 (fun i j => f t i j)).symm
  rw [List.map_congr_left h1]
  exact (range_mul_map n1 (n2 * n3) (fun q r => f q (r / n3) (r % n3))).symm

/-- Length of the row-major enumeration. -/
theorem rowMajor3_length (f : Nat → Nat → Nat → ℚ) (n1 n2 n3 : Nat) :
    (rowMajor3 f n1 n2 n3).length = n1 * (n2 * n3) := by
  rw [rowMajor3_eq]
  simp

/-- Decomposition of a flat row-major index over the last two axes. -/
theorem rowMajor_index_eq (k nla nlo : Nat) :
    k % (nla * nlo) / nlo * nlo + k % (nla * nlo) % nlo = k % (nla * nlo) :=
  Nat.div_add_mod' _ _

/-- The flattened whole array of a three-dimensional grid is its specified
surface column: row-major flattening of the entire grid. -/
theorem surface_flat_spec (a : NdArray) (nt nla nlo : Nat) (hs : a.shape = [nt, nla, nlo]) :
    a.flat = specSurface a nt nla nlo := by
  unfold NdArray.flat NdArray.size specSurface
  rw [rowMajor3_eq, hs]
  have hp : ([nt, nla, nlo] : List Nat).prod = nt * (nla * nlo) := by simp
  rw [hp]
  apply List.map_congr_left
  intro k _
  congr 1
  calc k
      = k / (nla * nlo) * (nla * nlo) + k % (nla * nlo) := (Nat.div_add_mod' _ _).symm
    _ = k / (nla * nlo) * (nla * nlo) + (k % (nla * nlo) / nlo * nlo + k % (nla * nlo) % nlo) := by
        rw [Nat.div_add_mod' (k % (nla * nlo)) nlo]
    _ = (k / (nla * nlo) * nla + k % (nla * nlo) / nlo) * nlo + k % (nla * nlo) % nlo := by
        ring


/-- Reduction of an Except bind on a success value. -/
theorem bindE_ok {α β : Type} (x : α) (f : α → Except PyErr β) :
    (do let a ← (Except.ok x : Except PyErr α); f a) = f x := rfl

/-- Reduction of an Except bind on an error value. -/
theorem bindE_err {α β : Type} (e : PyErr) (f : α → Except PyErr β) :
    (do let a ← (Except.error e : Except PyErr α); f a) = Except.error e := rfl

/-- The flattened level-zero slice of a four-dimensional array is its
specified column: the lowest-level slice flattened in row-major order. -/
theorem level0_flat_spec (a : NdArray) (nt nl nla nlo : Nat) :
    (List.range (nt * (nla * nlo))).map
        (fun k => a.data (k / (nla * nlo) * (nl * (nla * nlo)) + k % (nla * nlo)))
      = specLevel0 a nt nl nla nlo := by
  unfold specLevel0
  rw [rowMajor3_eq]
  apply List.map_congr_left
  intro k _
  congr 1
  calc k / (nla * nlo) * (nl * (nla * nlo)) + k % (nla * nlo)
      = k / (nla * nlo) * (nl * (nla * nlo))
          + (k % (nla * nlo) / nlo * nlo + k % (nla * nlo) % nlo) := by
        rw [Nat.div_add_mod' (k % (nla * nlo)) nlo]
    _ = (k / (nla * nlo) * nl * nla + k % (nla * nlo) / nlo) * nlo + k % (nla * nlo) % nlo := by
        ring

/-- Length of a flattened array. -/
theorem NdArray.flat_length (a : NdArray) : a.flat.length = a.shape.prod := by
  simp [NdArray.flat, NdArray.size]

/-- Aligning a Series to an index of exactly its length keeps all its values
and introduces no NaN. -/
theorem seriesCells_of_length (s : List ℚ) : seriesCells s.length s = s.map some := by
  unfold seriesCells
  induction s with
  | nil => rfl
  | cons a t ih =>
      have hstep : List.map ((a :: t).get? ∘ Nat.succ) (List.range t.length)
          = List.map t.get? (List.range t.length) := by
        apply List.map_congr_left
        intro x _
        rfl
      rw [List.length_cons, List.range_succ_eq_map, List.map_cons, List.map_map, hstep, ih]
      rfl

/-- A successful surface series is the flattened whole array. -/
theorem surfaceSeries_ok (ds : Dataset) (name : String) (a : NdArray)
    (h : ds.getVar name = .ok a) (h3 : 3 ≤ a.shape.length) :
    surfaceSeries ds name = .ok a.flat := by
  unfold surfaceSeries
  rw [h, bindE_ok]
  unfold sliceAll
  rw [if_pos h3, bindE_ok]

/-- A successful level-zero series on a four-dimensional array equals the
specified lowest-level column. -/
theorem level0Series_ok (ds : Dataset) (name : String) (a : NdArray) (nt nl nla nlo : Nat)
    (h : ds.getVar name = .ok a) (hs : a.shape = [nt, nl, nla, nlo]) (hl : 0 < nl) :
    level0Series ds name = .ok (specLevel0 a nt nl nla nlo) := by
  unfold level0Series
  rw [h, bindE_ok]
  unfold sliceLevel0
  rw [hs]
  simp only [List.length_cons, List.length_nil, List.getD_cons_succ, List.getD_cons_zero,
    List.take_succ_cons, List.take_zero, List.drop_succ_cons, List.drop_zero,
    List.prod_cons, List.prod_nil, mul_one, List.cons_append, List.nil_append]
  rw [if_pos ⟨by omega, hl⟩, bindE_ok]
  congr 1
  rw [← level0_flat_spec a nt nl nla nlo]
  unfold NdArray.flat NdArray.size
  simp only [List.prod_cons, List.prod_nil, mul_one]

/-- A fold of max over a nonempty list of equal values. -/
theorem foldr_max_const (v : Nat) (l : List Nat) (h : ∀ x ∈ l, x = v) (hne : l ≠ []) :
    l.foldr max 0 = v := by
  induction l with
  | nil => cases hne rfl
  | cons a t ih =>
      rcases Decidable.em (t = []) with ht | ht
      · subst ht
        have := h a (by simp)
        simp [this]
      · have ha := h a (by simp)
        have hrec := ih (fun x hx => h x (by simp [hx])) ht
        simp only [List.foldr_cons, hrec, ha, Nat.max_self]

/-- Row count of a frame built from equal-length Series. -/
theorem fromSeries_nrows (l : List (String × List ℚ)) (v : Nat)
    (h : ∀ p ∈ l, p.2.length = v) (hne : l ≠ []) : (DataFrame.fromSeries l).nrows = v := by
  unfold DataFrame.fromSeries
  apply foldr_max_const
  · intro x hx
    rcases List.mem_map.mp hx with ⟨p, hp, rfl⟩
    exact h p hp
  · simp [hne]

/-- Column assignment never changes the row count. -/
theorem setCol_nrows (df : DataFrame) (name : String) (s : List ℚ) :
    (df.setCol name s).nrows = df.nrows := by
  unfold DataFrame.setCol
  split <;> rfl

/-- The first-stage feature frame on a dataset with the expected shapes. -/
theorem buildFeatures_ok (ds : Dataset) (aPS aT aU aV : NdArray)
    (nt nla nlo lT lU lV : Nat)
    (hPS : ds.getVar "PS" = .ok aPS) (hPSs : aPS.shape = [nt, nla, nlo])
    (hT : ds.getVar "T" = .ok aT) (hTs : aT.shape = [nt, lT, nla, nlo]) (hlT : 0 < lT)
    (hU : ds.getVar "U" = .ok aU) (hUs : aU.shape = [nt, lU, nla, nlo]) (hlU : 0 < lU)
    (hV : ds.getVar "V" = .ok aV) (hVs : aV.shape = [nt, lV, nla, nlo]) (hlV : 0 < lV) :
    buildFeatures ds = .ok (DataFrame.fromSeries
      [("PS", aPS.flat), ("T", specLevel0 aT nt lT nla nlo),
       ("U", specLevel0 aU nt lU nla nlo), ("V", specLevel0 aV nt lV nla nlo)]) := by
  unfold buildFeatures
  rw [surfaceSeries_ok ds "PS" aPS hPS (by rw [hPSs]; simp), bindE_ok,
    level0Series_ok ds "T" aT nt lT nla nlo hT hTs hlT, bindE_ok,
    level0Series_ok ds "U" aU nt lU nla nlo hU hUs hlU, bindE_ok,
    level0Series_ok ds "V" aV nt lV nla nlo hV hVs hlV, bindE_ok]

/-- The first-stage label frame on a dataset with the expected shapes. -/
theorem buildLabels_ok (ds : Dataset) (aPTT aPUT aPVT : NdArray)
    (nt nla nlo lPTT lPUT lPVT : Nat)
    (hPTT : ds.getVar "PTTEND" = .ok aPTT) (hPTTs : aPTT.shape = [nt, lPTT, nla, nlo])
    (hlPTT : 0 < lPTT)
    (hPUT : ds.getVar "PUTEND" = .ok aPUT) (hPUTs : aPUT.shape = [nt, lPUT, nla, nlo])
    (hlPUT : 0 < lPUT)
    (hPVT : ds.getVar "PVTEND" = .ok aPVT) (hPVTs : aPVT.shape = [nt, lPVT, nla, nlo])
    (hlPVT : 0 < lPVT) :
    buildLabels ds = .ok (DataFrame.fromSeries
      [("PTTEND", specLevel0 aPTT nt lPTT nla nlo),
       ("PUTEND", specLevel0 aPUT nt lPUT nla nlo),
       ("PVTEND", specLevel0 aPVT nt lPVT nla nlo)]) := by
  unfold buildLabels
  rw [level0Series_ok ds "PTTEND" aPTT nt lPTT nla nlo hPTT hPTTs hlPTT, bindE_ok,
    level0Series_ok ds "PUTEND" aPUT nt lPUT nla nlo hPUT hPUTs hlPUT, bindE_ok,
    level0Series_ok ds "PVTEND" aPVT nt lPVT nla nlo hPVT hPVTs hlPVT, bindE_ok]

/-- The second-stage feature additions on a dataset with present variables. -/
theorem addStage2Features_ok (ds : Dataset) (df : DataFrame) (aPR aQ : NdArray)
    (hPR : ds.getVar "PRECL" = .ok aPR) (hPR3 : 3 ≤ aPR.shape.length)
    (hQ : ds.getVar "Q" = .ok aQ) (hQ3 : 3 ≤ aQ.shape.length) :
    addStage2Features ds df = .ok ((df.setCol "PRECL" aPR.flat).setCol "Q" aQ.flat) := by
  unfold addStage2Features
  rw [surfaceSeries_ok ds "PRECL" aPR hPR hPR3, bindE_ok,
    surfaceSeries_ok ds "Q" aQ hQ hQ3, bindE_ok]

/-- The second-stage label addition on a dataset with the expected shape. -/
theorem addStage2Labels_ok (ds : Dataset) (df : DataFrame) (aPTEQ : NdArray)
    (nt nla nlo lPTEQ : Nat)
    (hPTEQ : ds.getVar "PTEQ" = .ok aPTEQ) (hPTEQs : aPTEQ.shape = [nt, lPTEQ, nla, nlo])
    (hlPTEQ : 0 < lPTEQ) :
    addStage2Labels ds df = .ok (df.setCol "PTEQ" (specLevel0 aPTEQ nt lPTEQ nla nlo)) := by
  unfold addStage2Labels
  rw [level0Series_ok ds "PTEQ" aPTEQ nt lPTEQ nla nlo hPTEQ hPTEQs hlPTEQ, bindE_ok]

/-- The computed test-subset size is the ceiling of the fraction times n. -/
theorem nTestOf_eq_ceil (frac : ℚ) (n : Nat) :
    nTestOf frac n = (⌈frac * (n : ℚ)⌉).toNat := by
  unfold nTestOf
  congr 1
  have hden : ((frac.den : ℚ)) ≠ 0 := by exact_mod_cast frac.den_ne_zero
  have key : ((-(frac.num * (n : ℤ)) : ℤ) : ℚ) / ((frac.den : ℕ) : ℚ) = -(frac * (n : ℚ)) := by
    push_cast
    rw [div_eq_iff hden]
    have hq : (frac.num : ℚ) = frac * (frac.den : ℚ) := by
      have h0 : (frac.num : ℚ) / (frac.den : ℚ) * (frac.den : ℚ) = (frac.num : ℚ) :=
        div_mul_cancel₀ _ hden
      rw [Rat.num_div_den] at h0
      exact h0.symm
    calc -((frac.num : ℚ) * (n : ℚ))
        = -(frac * (frac.den : ℚ) * (n : ℚ)) := by rw [← hq]
      _ = -(frac * (n : ℚ)) * (frac.den : ℚ) := by ring
  rw [Int.fdiv_eq_ediv _ (by positivity : (0 : ℤ) ≤ (frac.den : ℤ))]
  rw [← Rat.floor_intCast_div_natCast, key, Int.floor_neg, neg_neg]

/-- The quarter fraction used by the script. -/
theorem quarter_le_one : (mkRat 1 4 : ℚ) ≤ 1 := by
  rw [Rat.mkRat_eq_divInt, Rat.divInt_eq_div]
  norm_num

/-- The quarter fraction is nonnegative. -/
theorem quarter_nonneg : (0 : ℚ) ≤ mkRat 1 4 := by
  rw [Rat.mkRat_eq_divInt, Rat.divInt_eq_div]
  norm_num

/-- The test-subset size never exceeds the number of rows. -/
theorem nTestOf_le (n : Nat) : nTestOf (mkRat 1 4) n ≤ n := by
  rw [nTestOf_eq_ceil]
  rw [Int.toNat_le]
  rw [Int.ceil_le]
  push_cast
  calc (mkRat 1 4 : ℚ) * (n : ℚ) ≤ 1 * (n : ℚ) := by
        apply mul_le_mul_of_nonneg_right quarter_le_one
        positivity
    _ = (n : ℚ) := one_mul _

/-- C2 (amended): for any permutation drawn by the generator, the splitter
with held-out fraction one quarter partitions the n rows so that every row
lands in exactly one subset; the test subset has ceiling of n times one
quarter rows, not the rounded value, and the training subset the remainder. -/
theorem splitter_partition (perm : Nat → Nat → List Nat) (seed n : Nat)
    (hp : (perm seed n).Perm (List.range n)) :
    (splitIndices perm seed (mkRat 1 4) n).2.length = nTestOf (mkRat 1 4) n ∧
    (splitIndices perm seed (mkRat 1 4) n).1.length = n - nTestOf (mkRat 1 4) n ∧
    nTestOf (mkRat 1 4) n = (⌈(mkRat 1 4 : ℚ) * (n : ℚ)⌉).toNat ∧
    ∀ i, i < n →
      (i ∈ (splitIndices perm seed (mkRat 1 4) n).1
          ∧ i ∉ (splitIndices perm seed (mkRat 1 4) n).2) ∨
      (i ∈ (splitIndices perm seed (mkRat 1 4) n).2
          ∧ i ∉ (splitIndices perm seed (mkRat 1 4) n).1) := by
  have hlen : (perm seed n).length = n := hp.length_eq.trans (List.length_range n)
  have hle : nTestOf (mkRat 1 4) n ≤ n := nTestOf_le n
  refine ⟨?_, ?_, nTestOf_eq_ceil _ n, ?_⟩
  · unfold splitIndices
    rw [List.length_take, hlen]
    exact Nat.min_eq_left hle
  · unfold splitIndices
    rw [List.length_drop, hlen]
  · intro i hi
    have hmem : i ∈ perm seed n := hp.mem_iff.mpr (List.mem_range.mpr hi)
    have hnd : (perm seed n).Nodup := hp.symm.nodup (List.nodup_range n)
    have hsplit : (perm seed n).take (nTestOf (mkRat 1 4) n)
        ++ (perm seed n).drop (nTestOf (mkRat 1 4) n) = perm seed n :=
      List.take_append_drop _ _
    rw [← hsplit] at hmem hnd
    have hdisj := List.disjoint_of_nodup_append hnd
    unfold splitIndices
    rcases List.mem_append.mp hmem with hta | hdr
    · exact Or.inr ⟨hta, fun hcontra => hdisj hta hcontra⟩
    · exact Or.inl ⟨hdr, fun hcontra => hdisj hcontra hdr⟩

/-- C2 witness: at the identity permutation with 18 rows the splitter yields
5 test rows and 13 training rows. -/
theorem splitter_partition_w :
    (permEx 4 18).Perm (List.range 18) ∧
    (splitIndices permEx 4 (mkRat 1 4) 18).2.length = nTestOf (mkRat 1 4) 18 ∧
    (splitIndices permEx 4 (mkRat 1 4) 18).1.length = 18 - nTestOf (mkRat 1 4) 18 ∧
    nTestOf (mkRat 1 4) 18 = 5 ∧ 18 - nTestOf (mkRat 1 4) 18 = 13 :=
  ⟨List.Perm.refl _, (splitter_partition permEx 4 18 (List.Perm.refl _)).1,
   (splitter_partition permEx 4 18 (List.Perm.refl _)).2.1, by decide, by decide⟩

/-- C2 counterexample: on 18 rows the code takes 5 test rows, while the
claimed size round of 18 times 0.25 is 4 (python round is half-even). -/
theorem splitter_round_cex :
    (splitIndices permEx 4 (mkRat 1 4) 18).2.length = 5 ∧
    roundHalfEvenDiv ((mkRat 1 4).num * 18) (mkRat 1 4).den = 4 ∧
    ((splitIndices permEx 4 (mkRat 1 4) 18).2.length : Int)
      ≠ roundHalfEvenDiv ((mkRat 1 4).num * 18) (mkRat 1 4).den :=
  ⟨by decide, by decide, by decide⟩

/-- C5 (amended): the consistency check logs the mismatch diagnostic at info
level, with a message text that merely begins with the word ERROR, and in
either case returns normally, never raising. -/
theorem time_check_info (ta tb : List ℚ) :
    (ta = tb → timeCheckLog ta tb = ⟨LogLevel.info, "OK: time values match as expected"⟩) ∧
    (ta ≠ tb → timeCheckLog ta tb = ⟨LogLevel.info, "ERROR: Non-matching time values"⟩) ∧
    (ta.length = tb.length → timeCheckE ta tb = .ok (timeCheckLog ta tb)) := by
  refine ⟨fun h => ?_, fun h => ?_, fun h => ?_⟩
  · simp [timeCheckLog, h]
  · simp [timeCheckLog, h]
  · simp [timeCheckE, h]

/-- C5 witness: concrete matching and mismatching time arrays. -/
theorem time_check_info_w :
    timeCheckLog [0] [0] = ⟨LogLevel.info, "OK: time values match as expected"⟩ ∧
    timeCheckLog [0] [1] = ⟨LogLevel.info, "ERROR: Non-matching time values"⟩ ∧
    timeCheckE [0] [1] = .ok (timeCheckLog [0] [1]) :=
  ⟨(time_check_info [0] [0]).1 rfl, (time_check_info [0] [1]).2.1 (by decide),
   (time_check_info [0] [1]).2.2 rfl⟩

/-- C5 counterexample: the mismatch diagnostic is emitted at info severity,
not at warning severity as claimed. -/
theorem time_check_level_cex :
    timeCheckLog [0] [1] = ⟨LogLevel.info, "ERROR: Non-matching time values"⟩ ∧
    (timeCheckLog [0] [1]).level ≠ LogLevel.warning := by
  refine ⟨by decide, by decide⟩

/-- C6 (confirmed): with the fixed random_state seed 4 the splitter is
deterministic: a second call right after the first returns the same value, a
call from any other global generator state returns the same value, and the
global generator state is never consumed. -/
theorem splitter_deterministic (perm : Nat → Nat → List Nat) (frac : ℚ)
    (x y : DataFrame) (g gAlt : RngState) :
    (trainTestSplitG perm (some 4) frac x y
        ((trainTestSplitG perm (some 4) frac x y g).2)).1
      = (trainTestSplitG perm (some 4) frac x y g).1 ∧
    (trainTestSplitG perm (some 4) frac x y gAlt).1
      = (trainTestSplitG perm (some 4) frac x y g).1 ∧
    (trainTestSplitG perm (some 4) frac x y g).2 = g := by
  unfold trainTestSplitG
  simp only [drawPerm]
  split
  · exact ⟨rfl, rfl, rfl⟩
  · split
    · exact ⟨rfl, rfl, rfl⟩
    · exact ⟨rfl, rfl, rfl⟩

/-- C3 (amended): the support-vector step with linear kernel raises on every
pair of DataFrame inputs, single-column labels included, because pandas
DataFrames have no flatten attribute; hence the sweep never completes. -/
theorem svr_linear_always_raises (xTr yTr : DataFrame) :
    (∃ e, svrLinearStep xTr yTr = .error e) ∧
    ∀ xTe yTe, train_test_linear xTr yTr xTe yTe ≠ .ok () := by
  have hsvr : ∃ e, svrLinearStep xTr yTr = .error e := by
    unfold svrLinearStep DataFrame.callFlatten
    by_cases h : xTr.cols.any (fun p => p.1 = "flatten") = true
    · exact ⟨.typeError, by rw [if_pos h]; rfl⟩
    · exact ⟨.attributeError "flatten", by rw [if_neg h]; rfl⟩
  refine ⟨hsvr, fun xTe yTe => ?_⟩
  unfold train_test_linear
  cases hfc : fitChecks xTr yTr xTe yTe with
  | error e =>
      rw [bindE_err]
      simp
  | ok u =>
      cases u
      rw [bindE_ok]
      split
      · simp
      · obtain ⟨e, he⟩ := hsvr
        rw [he, bindE_err]
        simp

/-- C3 counterexample: a single-column label frame, the PTEQ Series selected
from the example second-stage label table, still makes the support-vector
linear step raise an AttributeError. -/
theorem svr_linear_single_cex :
    (orEmptyDF (dfl2Ex.getItemStr "PTEQ")).cols.length = 1 ∧
    svrLinearStep dff1Ex (orEmptyDF (dfl2Ex.getItemStr "PTEQ"))
      = .error (.attributeError "flatten") := by
  refine ⟨by decide, rfl⟩

/-- Round-half-even of an exact integer quotient is that quotient. -/
theorem roundHalfEvenDiv_exact (k : Int) (d : Nat) (hd : 0 < d) :
    roundHalfEvenDiv ((d : Int) * k) d = k := by
  have hne : ((d : Int)) ≠ 0 := by exact_mod_cast hd.ne'
  have hzero : (d : Int) * k - k * (d : Int) = 0 := by ring
  have hlt : (2 : Int) * ((d : Int) * k - k * (d : Int)) < (d : Int) := by
    rw [hzero]
    simpa using (by exact_mod_cast hd : (0 : Int) < (d : Int))
  unfold roundHalfEvenDiv
  rw [Int.mul_fdiv_cancel_left k hne]
  exact if_pos hlt

/-- Elementwise evaluation of the fallible map when every element succeeds. -/
theorem mapExceptInt_spec (g : ℚ → Except PyErr Int) (spec : ℚ → Int) (ts : List ℚ)
    (h : ∀ t ∈ ts, g t = .ok (spec t)) :
    mapExceptInt g ts = .ok (ts.map spec) := by
  induction ts with
  | nil => rfl
  | cons a l ih =>
      unfold mapExceptInt
      rw [h a (by simp), bindE_ok, ih (fun t ht => h t (by simp [ht])), bindE_ok]
      rfl

/-- Microsecond-exact day offsets avoid the timedelta rounding: when the day
offset is a whole number of microseconds, the timedelta microseconds floored
to minutes are exactly the day offset times 1440 floored. -/
theorem timedelta_minutes_exact (t : ℚ) (hdvd : (t.den : ℤ) ∣ t.num * 86400000000) :
    (timedeltaDaysUs t).fdiv 60000000 = ⌊t * (1440 : ℚ)⌋ := by
  obtain ⟨k, hk1⟩ := hdvd
  have hdelta : timedeltaDaysUs t = k := by
    unfold timedeltaDaysUs
    rw [hk1]
    exact roundHalfEvenDiv_exact k t.den t.den_pos
  have hden : ((t.den : ℚ)) ≠ 0 := by exact_mod_cast t.den_ne_zero
  have hcast : (t : ℚ) * 86400000000 = (k : ℚ) := by
    have h0 : (t.num : ℚ) * 86400000000 = (t.den : ℚ) * (k : ℚ) := by exact_mod_cast hk1
    have hq : (t.num : ℚ) = t * (t.den : ℚ) := by
      have hh : (t.num : ℚ) / (t.den : ℚ) * (t.den : ℚ) = (t.num : ℚ) :=
        div_mul_cancel₀ _ hden
      rw [Rat.num_div_den] at hh
      exact hh.symm
    rw [hq] at h0
    have h1 : (t.den : ℚ) * (t * 86400000000) = (t.den : ℚ) * (k : ℚ) := by
      calc (t.den : ℚ) * (t * 86400000000) = t * (t.den : ℚ) * 86400000000 := by ring
        _ = (t.den : ℚ) * (k : ℚ) := h0
    exact mul_left_cancel₀ hden h1
  have hq1440 : (t * (1440 : ℚ)) = (k : ℚ) / ((60000000 : ℕ) : ℚ) := by
    push_cast
    rw [← hcast]
    rw [eq_div_iff (by norm_num : ((60000000 : ℚ)) ≠ 0)]
    ring
  have hfl : ⌊(t * (1440 : ℚ))⌋ = k / (60000000 : ℤ) := by
    rw [hq1440, Rat.floor_intCast_div_natCast]
    norm_num
  rw [hdelta, hfl, Int.fdiv_eq_ediv _ (by norm_num)]

/-- C9 (amended): for a valid initial calendar date and day offsets whose
datetimes stay in the representable range, extract_timestamps returns, in
input order, one timestamp per time value, the i-th being the initial date
plus that day offset rounded to the nearest whole microsecond (ties to even,
as python timedelta rounds) and then truncated toward the past to whole
minutes counted from the unix epoch; for a day offset that is a whole number
of microseconds the rounding is the identity and the entry is exactly the
initial date plus the offset truncated to minute resolution. -/
theorem extract_timestamps_rounded (times : List ℚ) (y m d : Nat)
    (hy1 : 1 ≤ y) (hy2 : y ≤ 9999) (hm1 : 1 ≤ m) (hm2 : m ≤ 12)
    (hd1 : 1 ≤ d) (hd2 : d ≤ daysInMonth y m)
    (hrange : ∀ t ∈ times,
      86400000000 ≤ (toordinal y m d : ℤ) * 86400000000 + timedeltaDaysUs t ∧
      (toordinal y m d : ℤ) * 86400000000 + timedeltaDaysUs t < 3652060 * 86400000000) :
    extract_timestamps times y m d
      = .ok (times.map (fun t =>
          ((toordinal y m d : ℤ) - 719163) * 1440 + (timedeltaDaysUs t).fdiv 60000000)) ∧
    ∀ t ∈ times, (t.den : ℤ) ∣ t.num * 86400000000 →
      (timedeltaDaysUs t).fdiv 60000000 = ⌊t * (1440 : ℚ)⌋ := by
  constructor
  · unfold extract_timestamps
    rw [pyDatetime, if_pos ⟨hy1, hy2, hm1, hm2, hd1, hd2⟩, bindE_ok]
    apply mapExceptInt_spec
    intro t ht
    obtain ⟨hr1, hr2⟩ := hrange t ht
    have hstep : pyDatetimeAddDays (toordinal y m d) t
        = .ok ((toordinal y m d : ℤ) * 86400000000 + timedeltaDaysUs t) := by
      unfold pyDatetimeAddDays
      exact if_pos ⟨hr1, hr2⟩
    rw [hstep, bindE_ok]
    congr 1
    have harr : (toordinal y m d : ℤ) * 86400000000 + timedeltaDaysUs t
        - (epochOrdinal : ℤ) * 86400000000
        = timedeltaDaysUs t + 60000000 * (((toordinal y m d : ℤ) - 719163) * 1440) := by
      unfold epochOrdinal
      push_cast
      ring
    rw [harr, Int.fdiv_eq_ediv _ (by positivity)]
    rw [Int.add_mul_ediv_left _ _ (by norm_num : ((60000000 : ℤ)) ≠ 0)]
    rw [Int.fdiv_eq_ediv _ (by norm_num : (0 : ℤ) ≤ 60000000)]
    ring
  · intro t _ hdvd
    exact timedelta_minutes_exact t hdvd

/-- C9 witness: three day offsets, zero, three halves and the dyadic
50704475 over two to the 32, from the initial date december 27 of year 2000;
the whole-microsecond case is exercised at three halves. -/
theorem extract_timestamps_rounded_w :
    extract_timestamps [0, mkRat 3 2, mkRat 50704475 4294967296] 2000 12 27
      = .ok (([0, mkRat 3 2, mkRat 50704475 4294967296] : List ℚ).map (fun t =>
          ((toordinal 2000 12 27 : ℤ) - 719163) * 1440 + (timedeltaDaysUs t).fdiv 60000000)) ∧
    (timedeltaDaysUs (mkRat 3 2)).fdiv 60000000 = ⌊(mkRat 3 2 : ℚ) * (1440 : ℚ)⌋ :=
  ⟨(extract_timestamps_rounded [0, mkRat 3 2, mkRat 50704475 4294967296] 2000 12 27
      (by decide) (by decide) (by decide) (by decide) (by decide) (by decide) (by decide)).1,
   (extract_timestamps_rounded [0, mkRat 3 2, mkRat 50704475 4294967296] 2000 12 27
      (by decide) (by decide) (by decide) (by decide) (by decide) (by decide) (by decide)).2
     (mkRat 3 2) (by decide) (by decide)⟩

/-- C9 counterexample: at the day offset 50704475 over two to the 32, an
exactly representable double, the timedelta microsecond value is within half
a microsecond below 17 minutes, so the half-even rounding lands on exactly
17 minutes while truncating the exact offset gives 16 minutes: the produced
timestamp is one minute later than the initial date plus the offset
truncated to minute resolution. -/
theorem extract_timestamps_round_cex :
    extract_timestamps [mkRat 50704475 4294967296] 2000 12 27 = .ok [16297937] ∧
    ((toordinal 2000 12 27 : ℤ) - 719163) * 1440
        + ⌊(mkRat 50704475 4294967296 : ℚ) * (1440 : ℚ)⌋ = 16297936 ∧
    (16297937 : ℤ) ≠ 16297936 := by
  refine ⟨rfl, ?_, by decide⟩
  have h : ((mkRat 50704475 4294967296 : ℚ)) * (1440 : ℚ)
      = ((73014444000 : ℤ) : ℚ) / ((4294967296 : ℕ) : ℚ) := by
    rw [Rat.mkRat_eq_divInt, Rat.divInt_eq_div]
    push_cast
    norm_num
  rw [h, Rat.floor_intCast_div_natCast]
  decide

/-- Length of the specified surface column. -/
theorem specSurface_length (a : NdArray) (nt nla nlo : Nat) :
    (specSurface a nt nla nlo).length = nt * (nla * nlo) :=
  rowMajor3_length _ _ _ _

/-- Length of the specified lowest-level column. -/
theorem specLevel0_length (a : NdArray) (nt nl nla nlo : Nat) :
    (specLevel0 a nt nl nla nlo).length = nt * (nla * nlo) :=
  rowMajor3_length _ _ _ _

/-- Column lookup on a frame built from Series reduces to lookup among the
Series, aligned to the frame index. -/
theorem getCol_fromSeries (l : List (String × List ℚ)) (name : String) :
    (DataFrame.fromSeries l).getCol name
      = (l.find? (fun p => p.1 = name)).map
          (fun p => seriesCells (DataFrame.fromSeries l).nrows p.2) := by
  unfold DataFrame.fromSeries DataFrame.getCol
  simp only [List.find?_map, Option.map_map]
  rfl

/-- Looking up a freshly assigned column returns the aligned assigned Series. -/
theorem getCol_setCol_self (df : DataFrame) (name : String) (s : List ℚ)
    (hfresh : df.cols.any (fun p => p.1 = name) = false) :
    (df.setCol name s).getCol name = some (seriesCells df.nrows s) := by
  unfold DataFrame.setCol DataFrame.getCol
  rw [hfresh]
  simp only [Bool.false_eq_true, if_false, List.find?_append]
  have hnone : df.cols.find? (fun p => p.1 = name) = none := by
    rw [List.find?_eq_none]
    intro p hp
    intro hcontra
    have : df.cols.any (fun q => q.1 = name) = true :=
      List.any_eq_true.mpr ⟨p, hp, hcontra⟩
    rw [hfresh] at this
    cases this
  rw [hnone]
  simp [List.find?]

/-- Assigning a fresh column leaves every other column unchanged. -/
theorem getCol_setCol_other (df : DataFrame) (name : String) (s : List ℚ) (other : String)
    (hfresh : df.cols.any (fun p => p.1 = name) = false) (hne : name ≠ other) :
    (df.setCol name s).getCol other = df.getCol other := by
  unfold DataFrame.setCol DataFrame.getCol
  rw [hfresh]
  simp only [Bool.false_eq_true, if_false, List.find?_append]
  have hlast : ([(name, seriesCells df.nrows s)].find? (fun p => p.1 = other)) = none := by
    simp [List.find?, hne]
  rw [hlast]
  cases df.cols.find? (fun p => p.1 = other) <;> rfl

/-- A successful second-stage feature addition preserves the row count. -/
theorem addStage2Features_nrows (ds : Dataset) (df df2 : DataFrame)
    (h : addStage2Features ds df = .ok df2) : df2.nrows = df.nrows := by
  unfold addStage2Features at h
  cases hpr : surfaceSeries ds "PRECL" with
  | error e => rw [hpr, bindE_err] at h; cases h
  | ok s1 =>
      rw [hpr, bindE_ok] at h
      cases hq : surfaceSeries ds "Q" with
      | error e => rw [hq, bindE_err] at h; cases h
      | ok s2 =>
          rw [hq, bindE_ok] at h
          injection h with h2
          rw [← h2, setCol_nrows, setCol_nrows]

/-- A successful second-stage label addition preserves the row count. -/
theorem addStage2Labels_nrows (ds : Dataset) (df df2 : DataFrame)
    (h : addStage2Labels ds df = .ok df2) : df2.nrows = df.nrows := by
  unfold addStage2Labels at h
  cases hpt : level0Series ds "PTEQ" with
  | error e => rw [hpt, bindE_err] at h; cases h
  | ok s1 =>
      rw [hpt, bindE_ok] at h
      injection h with h2
      rw [← h2, setCol_nrows]

/-- C7 (confirmed): on datasets whose variables share a grid of nt time
steps by nla by nlo points (the leveled variables with positive level
counts), the feature and label frames of both stages all have exactly
nt times nla times nlo rows, and every selected variable contributes a
policy slice of exactly that many values, so the row-count invariant holds
at construction and survives the second-stage column additions. -/
theorem row_count_invariant
    (dsF dsL : Dataset) (aPS aT aU aV aPR aQ aPTT aPUT aPVT aPTEQ : NdArray)
    (nt nla nlo lT lU lV lQ lPTT lPUT lPVT lPTEQ : Nat)
    (hPS : dsF.getVar "PS" = .ok aPS) (hPSs : aPS.shape = [nt, nla, nlo])
    (hT : dsF.getVar "T" = .ok aT) (hTs : aT.shape = [nt, lT, nla, nlo]) (hlT : 0 < lT)
    (hU : dsF.getVar "U" = .ok aU) (hUs : aU.shape = [nt, lU, nla, nlo]) (hlU : 0 < lU)
    (hV : dsF.getVar "V" = .ok aV) (hVs : aV.shape = [nt, lV, nla, nlo]) (hlV : 0 < lV)
    (hPR : dsF.getVar "PRECL" = .ok aPR) (hPRs : aPR.shape = [nt, nla, nlo])
    (hQ : dsF.getVar "Q" = .ok aQ) (hQs : aQ.shape = [nt, lQ, nla, nlo]) (hlQ : 0 < lQ)
    (hPTT : dsL.getVar "PTTEND" = .ok aPTT) (hPTTs : aPTT.shape = [nt, lPTT, nla, nlo])
    (hlPTT : 0 < lPTT)
    (hPUT : dsL.getVar "PUTEND" = .ok aPUT) (hPUTs : aPUT.shape = [nt, lPUT, nla, nlo])
    (hlPUT : 0 < lPUT)
    (hPVT : dsL.getVar "PVTEND" = .ok aPVT) (hPVTs : aPVT.shape = [nt, lPVT, nla, nlo])
    (hlPVT : 0 < lPVT)
    (hPTEQ : dsL.getVar "PTEQ" = .ok aPTEQ) (hPTEQs : aPTEQ.shape = [nt, lPTEQ, nla, nlo])
    (hlPTEQ : 0 < lPTEQ)
    (dff1 dfl1 dff2 dfl2 : DataFrame)
    (h1 : buildFeatures dsF = .ok dff1) (h2 : buildLabels dsL = .ok dfl1)
    (h3 : addStage2Features dsF dff1 = .ok dff2) (h4 : addStage2Labels dsL dfl1 = .ok dfl2) :
    dff1.nrows = nt * (nla * nlo) ∧ dfl1.nrows = nt * (nla * nlo) ∧
    dff2.nrows = nt * (nla * nlo) ∧ dfl2.nrows = nt * (nla * nlo) ∧
    (specSurface aPS nt nla nlo).length = nt * (nla * nlo) ∧
    (specLevel0 aT nt lT nla nlo).length = nt * (nla * nlo) ∧
    (specLevel0 aU nt lU nla nlo).length = nt * (nla * nlo) ∧
    (specLevel0 aV nt lV nla nlo).length = nt * (nla * nlo) ∧
    (specSurface aPR nt nla nlo).length = nt * (nla * nlo) ∧
    (specLevel0 aQ nt lQ nla nlo).length = nt * (nla * nlo) ∧
    (specLevel0 aPTT nt lPTT nla nlo).length = nt * (nla * nlo) ∧
    (specLevel0 aPUT nt lPUT nla nlo).length = nt * (nla * nlo) ∧
    (specLevel0 aPVT nt lPVT nla nlo).length = nt * (nla * nlo) ∧
    (specLevel0 aPTEQ nt lPTEQ nla nlo).length = nt * (nla * nlo) := by
  have hbF := buildFeatures_ok dsF aPS aT aU aV nt nla nlo lT lU lV
    hPS hPSs hT hTs hlT hU hUs hlU hV hVs hlV
  have hbL := buildLabels_ok dsL aPTT aPUT aPVT nt nla nlo lPTT lPUT lPVT
    hPTT hPTTs hlPTT hPUT hPUTs hlPUT hPVT hPVTs hlPVT
  rw [hbF] at h1
  rw [hbL] at h2
  injection h1 with e1
  injection h2 with e2
  have hlenPS : aPS.flat.length = nt * (nla * nlo) := by
    rw [NdArray.flat_length, hPSs]
    simp [Nat.mul_assoc]
  have hn1 : dff1.nrows = nt * (nla * nlo) := by
    rw [← e1]
    apply fromSeries_nrows _ (nt * (nla * nlo))
    · intro p hp
      simp only [List.mem_cons, List.not_mem_nil, or_false] at hp
      rcases hp with rfl | rfl | rfl | rfl
      · exact hlenPS
      · exact specLevel0_length aT nt lT nla nlo
      · exact specLevel0_length aU nt lU nla nlo
      · exact specLevel0_length aV nt lV nla nlo
    · simp
  have hn2 : dfl1.nrows = nt * (nla * nlo) := by
    rw [← e2]
    apply fromSeries_nrows _ (nt * (nla * nlo))
    · intro p hp
      simp only [List.mem_cons, List.not_mem_nil, or_false] at hp
      rcases hp with rfl | rfl | rfl
      · exact specLevel0_length aPTT nt lPTT nla nlo
      · exact specLevel0_length aPUT nt lPUT nla nlo
      · exact specLevel0_length aPVT nt lPVT nla nlo
    · simp
  refine ⟨hn1, hn2, ?_, ?_, ?_, specLevel0_length aT nt lT nla nlo,
    specLevel0_length aU nt lU nla nlo, specLevel0_length aV nt lV nla nlo, ?_,
    specLevel0_length aQ nt lQ nla nlo, specLevel0_length aPTT nt lPTT nla nlo,
    specLevel0_length aPUT nt lPUT nla nlo, specLevel0_length aPVT nt lPVT nla nlo,
    specLevel0_length aPTEQ nt lPTEQ nla nlo⟩
  · rw [addStage2Features_nrows dsF dff1 dff2 h3, hn1]
  · rw [addStage2Labels_nrows dsL dfl1 dfl2 h4, hn2]
  · exact specSurface_length aPS nt nla nlo
  · exact specSurface_length aPR nt nla nlo

/-- C7 witness: the example datasets with a 3 by 3 by 3 grid and two levels
give 27-row frames at every stage. -/
theorem row_count_invariant_w :
    buildFeatures dsFeaturesEx = .ok dff1Ex ∧
    dff1Ex.nrows = 3 * (3 * 3) ∧ dfl1Ex.nrows = 3 * (3 * 3) ∧
    dff2Ex.nrows = 3 * (3 * 3) ∧ dfl2Ex.nrows = 3 * (3 * 3) := by
  have h := row_count_invariant dsFeaturesEx dsLabelsEx
    psEx tEx uEx vEx preclEx qEx pttendEx putendEx pvtendEx pteqEx
    3 3 3 2 2 2 2 2 2 2 2
    rfl rfl rfl rfl (by decide) rfl rfl (by decide) rfl rfl (by decide)
    rfl rfl rfl rfl (by decide) rfl rfl (by decide) rfl rfl (by decide)
    rfl rfl (by decide) rfl rfl (by decide)
    dff1Ex dfl1Ex dff2Ex dfl2Ex rfl rfl rfl rfl
  exact ⟨rfl, h.1, h.2.1, h.2.2.1, h.2.2.2.1⟩

/-- C10 (confirmed): successful second-stage additions preserve the row
counts of both frames, so the second split call, with the same seed 4 and
the same quarter fraction, draws the identical index partition as the first:
the same rows go to train and to test in both sweeps. -/
theorem splits_share_partition (perm : Nat → Nat → List Nat)
    (dsF dsL : Dataset) (dff1 dfl1 dff2 dfl2 : DataFrame)
    (h3 : addStage2Features dsF dff1 = .ok dff2)
    (h4 : addStage2Labels dsL dfl1 = .ok dfl2) :
    dff2.nrows = dff1.nrows ∧ dfl2.nrows = dfl1.nrows ∧
    splitIndices perm 4 (mkRat 1 4) dff2.nrows
      = splitIndices perm 4 (mkRat 1 4) dff1.nrows := by
  have hf := addStage2Features_nrows dsF dff1 dff2 h3
  have hl := addStage2Labels_nrows dsL dfl1 dfl2 h4
  exact ⟨hf, hl, by rw [hf]⟩

/-- C10 witness: on the example pipeline both stages have 27 rows and the
two splits share their index partition. -/
theorem splits_share_partition_w :
    addStage2Features dsFeaturesEx dff1Ex = .ok dff2Ex ∧
    dff2Ex.nrows = dff1Ex.nrows ∧
    splitIndices permEx 4 (mkRat 1 4) dff2Ex.nrows
      = splitIndices permEx 4 (mkRat 1 4) dff1Ex.nrows :=
  ⟨rfl, (splits_share_partition permEx dsFeaturesEx dsLabelsEx
      dff1Ex dfl1Ex dff2Ex dfl2Ex rfl rfl).1,
   (splits_share_partition permEx dsFeaturesEx dsLabelsEx
      dff1Ex dfl1Ex dff2Ex dfl2Ex rfl rfl).2.2⟩

/-- C8 (amended): the second-stage assignments mutate the existing frame in
place rather than building a fresh immutable value; the mutation is exactly
an appended column: the row count and every existing column are unchanged,
and the new column is the aligned assigned Series. -/
theorem setCol_frame (df : DataFrame) (name : String) (s : List ℚ)
    (hfresh : df.cols.any (fun p => p.1 = name) = false) :
    (df.setCol name s).cols = df.cols ++ [(name, seriesCells df.nrows s)] ∧
    (df.setCol name s).nrows = df.nrows ∧
    (df.setCol name s).getCol name = some (seriesCells df.nrows s) ∧
    ∀ other, name ≠ other → (df.setCol name s).getCol other = df.getCol other := by
  refine ⟨?_, setCol_nrows df name s, getCol_setCol_self df name s hfresh,
    fun other hne => getCol_setCol_other df name s other hfresh hne⟩
  unfold DataFrame.setCol
  rw [hfresh]
  simp

/-- C8 witness: assigning PRECL to the example first-stage frame appends a
column and keeps the row count and the PS column. -/
theorem setCol_frame_w :
    dff1Ex.cols.any (fun p => p.1 = "PRECL") = false ∧
    (dff1Ex.setCol "PRECL" preclEx.flat).nrows = dff1Ex.nrows ∧
    (dff1Ex.setCol "PRECL" preclEx.flat).getCol "PS" = dff1Ex.getCol "PS" :=
  ⟨by decide, (setCol_frame dff1Ex "PRECL" preclEx.flat (by decide)).2.1,
   (setCol_frame dff1Ex "PRECL" preclEx.flat (by decide)).2.2.2 "PS" (by decide)⟩

/-- C8 counterexample: the frames bound to the script names after the
second-stage in-place additions differ from the frames as first constructed,
so the tables are modified after creation. -/
theorem tables_mutated_cex :
    addStage2Features dsFeaturesEx dff1Ex = .ok dff2Ex ∧ dff2Ex ≠ dff1Ex ∧
    addStage2Labels dsLabelsEx dfl1Ex = .ok dfl2Ex ∧ dfl2Ex ≠ dfl1Ex :=
  ⟨rfl, by decide, rfl, by decide⟩

/-- C4 (code bug): the script raises instead of ending normally: on the
example datasets the whole pipeline terminates with the AttributeError of
the first sweep, and independently the third-stage trim expression, a tuple
key lookup, raises a KeyError on every frame, so the third split can never
be constructed even when the sweeps are reached. -/
theorem third_stage_raises :
    mainPipeline permEx dsFeaturesEx dsLabelsEx = .error (.attributeError "flatten") ∧
    dff2Ex.getItemTuple "PRECL" "Q" = .error (.keyError "PRECL, Q") ∧
    ∀ df : DataFrame, df.getItemTuple "PRECL" "Q" = .error (.keyError "PRECL, Q") :=
  ⟨rfl, rfl, fun _ => rfl⟩

/-- Row count of the literal first-stage feature frame. -/
theorem features1_nrows (aPS aT aU aV : NdArray) (nt nla nlo lT lU lV : Nat)
    (hPSlen : aPS.flat.length = nt * (nla * nlo)) :
    (DataFrame.fromSeries
      [("PS", aPS.flat), ("T", specLevel0 aT nt lT nla nlo),
       ("U", specLevel0 aU nt lU nla nlo), ("V", specLevel0 aV nt lV nla nlo)]).nrows
      = nt * (nla * nlo) := by
  apply fromSeries_nrows _ (nt * (nla * nlo))
  · intro p hp
    simp only [List.mem_cons, List.not_mem_nil, or_false] at hp
    rcases hp with rfl | rfl | rfl | rfl
    · exact hPSlen
    · exact specLevel0_length aT nt lT nla nlo
    · exact specLevel0_length aU nt lU nla nlo
    · exact specLevel0_length aV nt lV nla nlo
  · simp

/-- Row count of the literal first-stage label frame. -/
theorem labels1_nrows (aPTT aPUT aPVT : NdArray) (nt nla nlo lPTT lPUT lPVT : Nat) :
    (DataFrame.fromSeries
      [("PTTEND", specLevel0 aPTT nt lPTT nla nlo),
       ("PUTEND", specLevel0 aPUT nt lPUT nla nlo),
       ("PVTEND", specLevel0 aPVT nt lPVT nla nlo)]).nrows = nt * (nla * nlo) := by
  apply fromSeries_nrows _ (nt * (nla * nlo))
  · intro p hp
    simp only [List.mem_cons, List.not_mem_nil, or_false] at hp
    rcases hp with rfl | rfl | rfl
    · exact specLevel0_length aPTT nt lPTT nla nlo
    · exact specLevel0_length aPUT nt lPUT nla nlo
    · exact specLevel0_length aPVT nt lPVT nla nlo
  · simp

/-- C1 (amended): on datasets with the expected grid shapes, every column of
the feature and label tables equals the fixed policy slice flattened in
row-major order, with one exception: the whole grid for the surface
variables PS and PRECL, the lowest vertical level for T, U, V, PTTEND,
PUTEND, PVTEND and PTEQ, but for Q, even though it carries a vertical-level
dimension, the code reads the entire array with the surface slicing
expression, so the Q column holds the first nt times nla times nlo values of
the whole flattened array aligned by index, not the lowest-level slice. -/
theorem tabularizer_columns
    (dsF dsL : Dataset) (aPS aT aU aV aPR aQ aPTT aPUT aPVT aPTEQ : NdArray)
    (nt nla nlo lT lU lV lQ lPTT lPUT lPVT lPTEQ : Nat)
    (hPS : dsF.getVar "PS" = .ok aPS) (hPSs : aPS.shape = [nt, nla, nlo])
    (hT : dsF.getVar "T" = .ok aT) (hTs : aT.shape = [nt, lT, nla, nlo]) (hlT : 0 < lT)
    (hU : dsF.getVar "U" = .ok aU) (hUs : aU.shape = [nt, lU, nla, nlo]) (hlU : 0 < lU)
    (hV : dsF.getVar "V" = .ok aV) (hVs : aV.shape = [nt, lV, nla, nlo]) (hlV : 0 < lV)
    (hPR : dsF.getVar "PRECL" = .ok aPR) (hPRs : aPR.shape = [nt, nla, nlo])
    (hQ : dsF.getVar "Q" = .ok aQ) (hQs : aQ.shape = [nt, lQ, nla, nlo])
    (hPTT : dsL.getVar "PTTEND" = .ok aPTT) (hPTTs : aPTT.shape = [nt, lPTT, nla, nlo])
    (hlPTT : 0 < lPTT)
    (hPUT : dsL.getVar "PUTEND" = .ok aPUT) (hPUTs : aPUT.shape = [nt, lPUT, nla, nlo])
    (hlPUT : 0 < lPUT)
    (hPVT : dsL.getVar "PVTEND" = .ok aPVT) (hPVTs : aPVT.shape = [nt, lPVT, nla, nlo])
    (hlPVT : 0 < lPVT)
    (hPTEQ : dsL.getVar "PTEQ" = .ok aPTEQ) (hPTEQs : aPTEQ.shape = [nt, lPTEQ, nla, nlo])
    (hlPTEQ : 0 < lPTEQ)
    (dff1 dfl1 dff2 dfl2 : DataFrame)
    (h1 : buildFeatures dsF = .ok dff1) (h2 : buildLabels dsL = .ok dfl1)
    (h3 : addStage2Features dsF dff1 = .ok dff2) (h4 : addStage2Labels dsL dfl1 = .ok dfl2) :
    dff1.getCol "PS" = some ((specSurface aPS nt nla nlo).map some) ∧
    dff1.getCol "T" = some ((specLevel0 aT nt lT nla nlo).map some) ∧
    dff1.getCol "U" = some ((specLevel0 aU nt lU nla nlo).map some) ∧
    dff1.getCol "V" = some ((specLevel0 aV nt lV nla nlo).map some) ∧
    dfl1.getCol "PTTEND" = some ((specLevel0 aPTT nt lPTT nla nlo).map some) ∧
    dfl1.getCol "PUTEND" = some ((specLevel0 aPUT nt lPUT nla nlo).map some) ∧
    dfl1.getCol "PVTEND" = some ((specLevel0 aPVT nt lPVT nla nlo).map some) ∧
    dff2.getCol "PRECL" = some ((specSurface aPR nt nla nlo).map some) ∧
    dff2.getCol "Q" = some (seriesCells (nt * (nla * nlo)) aQ.flat) ∧
    dfl2.getCol "PTEQ" = some ((specLevel0 aPTEQ nt lPTEQ nla nlo).map some) := by
  have hbF := buildFeatures_ok dsF aPS aT aU aV nt nla nlo lT lU lV
    hPS hPSs hT hTs hlT hU hUs hlU hV hVs hlV
  have hbL := buildLabels_ok dsL aPTT aPUT aPVT nt nla nlo lPTT lPUT lPVT
    hPTT hPTTs hlPTT hPUT hPUTs hlPUT hPVT hPVTs hlPVT
  rw [hbF] at h1
  rw [hbL] at h2
  injection h1 with e1
  injection h2 with e2
  have hbF2 := addStage2Features_ok dsF dff1 aPR aQ hPR (by rw [hPRs]; simp)
    hQ (by rw [hQs]; simp)
  rw [hbF2] at h3
  injection h3 with e3
  have hbL2 := addStage2Labels_ok dsL dfl1 aPTEQ nt nla nlo lPTEQ hPTEQ hPTEQs hlPTEQ
  rw [hbL2] at h4
  injection h4 with e4
  have hlenPS : aPS.flat.length = nt * (nla * nlo) := by
    rw [NdArray.flat_length, hPSs]
    simp [Nat.mul_assoc]
  have hlenPR : aPR.flat.length = nt * (nla * nlo) := by
    rw [NdArray.flat_length, hPRs]
    simp [Nat.mul_assoc]
  have hn1 : dff1.nrows = nt * (nla * nlo) := by
    rw [← e1]
    exact features1_nrows aPS aT aU aV nt nla nlo lT lU lV hlenPS
  have hn2 : dfl1.nrows = nt * (nla * nlo) := by
    rw [← e2]
    exact labels1_nrows aPTT aPUT aPVT nt nla nlo lPTT lPUT lPVT
  have hcells : ∀ s : List ℚ, s.length = nt * (nla * nlo) →
      seriesCells (nt * (nla * nlo)) s = s.map some := by
    intro s hs
    rw [← hs, seriesCells_of_length]
  have hfreshPR : dff1.cols.any (fun p => p.1 = "PRECL") = false := by
    rw [← e1]
    unfold DataFrame.fromSeries
    simp
  have hfreshQ : (dff1.setCol "PRECL" aPR.flat).cols.any (fun p => p.1 = "Q") = false := by
    rw [(setCol_frame dff1 "PRECL" aPR.flat hfreshPR).1, ← e1]
    unfold DataFrame.fromSeries
    simp
  have hfreshPTEQ : dfl1.cols.any (fun p => p.1 = "PTEQ") = false := by
    rw [← e2]
    unfold DataFrame.fromSeries
    simp
  refine ⟨?_, ?_, ?_, ?_, ?_, ?_, ?_, ?_, ?_, ?_⟩
  · rw [← e1, getCol_fromSeries]
    simp only [List.find?]
    rw [features1_nrows aPS aT aU aV nt nla nlo lT lU lV hlenPS]
    simp [surface_flat_spec aPS nt nla nlo hPSs,
      hcells _ (specSurface_length aPS nt nla nlo)]
  · rw [← e1, getCol_fromSeries]
    simp only [List.find?]
    rw [features1_nrows aPS aT aU aV nt nla nlo lT lU lV hlenPS]
    simp [hcells _ (specLevel0_length aT nt lT nla nlo)]
  · rw [← e1, getCol_fromSeries]
    simp only [List.find?]
    rw [features1_nrows aPS aT aU aV nt nla nlo lT lU lV hlenPS]
    simp [hcells _ (specLevel0_length aU nt lU nla nlo)]
  · rw [← e1, getCol_fromSeries]
    simp only [List.find?]
    rw [features1_nrows aPS aT aU aV nt nla nlo lT lU lV hlenPS]
    simp [hcells _ (specLevel0_length aV nt lV nla nlo)]
  · rw [← e2, getCol_fromSeries]
    simp only [List.find?]
    rw [labels1_nrows aPTT aPUT aPVT nt nla nlo lPTT lPUT lPVT]
    simp [hcells _ (specLevel0_length aPTT nt lPTT nla nlo)]
  · rw [← e2, getCol_fromSeries]
    simp only [List.find?]
    rw [labels1_nrows aPTT aPUT aPVT nt nla nlo lPTT lPUT lPVT]
    simp [hcells _ (specLevel0_length aPUT nt lPUT nla nlo)]
  · rw [← e2, getCol_fromSeries]
    simp only [List.find?]
    rw [labels1_nrows aPTT aPUT aPVT nt nla nlo lPTT lPUT lPVT]
    simp [hcells _ (specLevel0_length aPVT nt lPVT nla nlo)]
  · rw [← e3, getCol_setCol_other _ "Q" aQ.flat "PRECL" hfreshQ (by decide),
      getCol_setCol_self dff1 "PRECL" aPR.flat hfreshPR, hn1,
      hcells aPR.flat hlenPR, surface_flat_spec aPR nt nla nlo hPRs]
  · rw [← e3, getCol_setCol_self _ "Q" aQ.flat hfreshQ, setCol_nrows, hn1]
  · rw [← e4, getCol_setCol_self dfl1 "PTEQ" _ hfreshPTEQ, hn2,
      hcells _ (specLevel0_length aPTEQ nt lPTEQ nla nlo)]

/-- C1 witness: on the example datasets the PS column is the flattened grid,
the T column the lowest-level slice, and the Q column the aligned prefix of
the whole flattened Q array. -/
theorem tabularizer_columns_w :
    buildFeatures dsFeaturesEx = .ok dff1Ex ∧
    dff1Ex.getCol "PS" = some ((specSurface psEx 3 3 3).map some) ∧
    dff1Ex.getCol "T" = some ((specLevel0 tEx 3 2 3 3).map some) ∧
    dff2Ex.getCol "Q" = some (seriesCells (3 * (3 * 3)) qEx.flat) := by
  have h := tabularizer_columns dsFeaturesEx dsLabelsEx
    psEx tEx uEx vEx preclEx qEx pttendEx putendEx pvtendEx pteqEx
    3 3 3 2 2 2 2 2 2 2 2
    rfl rfl rfl rfl (by decide) rfl rfl (by decide) rfl rfl (by decide)
    rfl rfl rfl rfl rfl rfl (by decide) rfl rfl (by decide)
    rfl rfl (by decide) rfl rfl (by decide)
    dff1Ex dfl1Ex dff2Ex dfl2Ex rfl rfl rfl rfl
  exact ⟨rfl, h.1, h.2.1, h.2.2.2.2.2.2.2.2.1⟩

/-- C1 counterexample: Q has a vertical-level dimension in the example
dataset, yet the Q column of the second-stage feature table is not the
lowest-level slice flattened in row-major order. -/
theorem tabularizer_policy_cex :
    qEx.shape = [3, 2, 3, 3] ∧
    addStage2Features dsFeaturesEx dff1Ex = .ok dff2Ex ∧
    dff2Ex.getCol "Q" ≠ some ((specLevel0 qEx 3 2 3 3).map some) :=
  ⟨rfl, rfl, by decide⟩
